import Mathlib

/-!
Verification of the GitHub rate-limit dashboard (`github_rate_monitor.py`).

The script is a Streamlit single-page app: it collects a personal access
token, performs one HTTP GET against the GitHub `rate_limit` endpoint,
and renders the returned quota counters.  This file gives a shallow
embedding of the script: JSON payloads are modelled by the `Json`
inductive with Python truthiness and dict operations, the fetcher by
`fetch_rate_limit` over an abstract transport outcome, the arithmetic
helpers over `ℚ`/`ℤ`, and one top-to-bottom run of the script by the
`step` function on session state.
-/

/-- JSON values as Python sees them after `response.json()`:
`null`/`num`/`str`/`obj` (an object is an association list; Python dicts
have unique keys, lookups take the first occurrence). -/
inductive Json where
  | null : Json
  | num : Int → Json
  | str : String → Json
  | obj : List (String × Json) → Json

/-- Key lookup on a JSON object (`d[k]` when present); `none` on missing
keys and on non-objects. -/
def Json.lookupKey : Json → String → Option Json
  | Json.obj kvs, k => List.lookup k kvs
  | _, _ => none

/-- Python `d.get(k, dflt)`. -/
def Json.getD (d : Json) (k : String) (dflt : Json) : Json :=
  (d.lookupKey k).getD dflt

/-- Python `k in d` on a dict. -/
def Json.hasKey (d : Json) (k : String) : Bool :=
  (d.lookupKey k).isSome

/-- Replace the value of the first entry with key `k`, keeping order. -/
def setEntry (k : String) (v : Json) : List (String × Json) → List (String × Json)
  | [] => [(k, v)]
  | kv :: rest => if kv.1 == k then (k, v) :: rest else kv :: setEntry k v rest

/-- Python `d[k] = v` on a dict: overwrite in place if the key exists,
otherwise append (Python insertion order). Non-objects are unchanged. -/
def Json.setKey : Json → String → Json → Json
  | Json.obj kvs, k, v => Json.obj (setEntry k v kvs)
  | j, _, _ => j

/-- Python truthiness of a value: `None`, `0`, `""` and `{}` are falsy. -/
def Json.truthy : Json → Bool
  | Json.null => false
  | Json.num n => n != 0
  | Json.str s => s != ""
  | Json.obj kvs => !kvs.isEmpty

/-- The single-quote character, used by Python `repr` of strings. -/
def squote : Char := Char.ofNat 39

mutual

/-- Python `repr` of a JSON value (string escaping inside quotes is not
modelled; no claim depends on it). -/
def pyRepr : Json → String
  | Json.null => "None"
  | Json.num n => toString n
  | Json.str s => String.mk (squote :: s.data ++ [squote])
  | Json.obj kvs => "\x7b" ++ pyReprEntries kvs ++ "\x7d"

/-- Comma-separated `repr` of dict entries. -/
def pyReprEntries : List (String × Json) → String
  | [] => ""
  | [(k, v)] => pyRepr (Json.str k) ++ ": " ++ pyRepr v
  | (k, v) :: kv :: rest => pyRepr (Json.str k) ++ ": " ++ pyRepr v ++ ", " ++ pyReprEntries (kv :: rest)

end

/-- Python `str`: identity on strings, `repr` on other values. -/
def pyStr : Json → String
  | Json.str s => s
  | j => pyRepr j

/-- `pat.isPrefixOf l` over characters, written out so proofs can unfold it. -/
def isPrefixList : List Char → List Char → Bool
  | [], _ => true
  | _ :: _, [] => false
  | a :: as, b :: bs => a == b && isPrefixList as bs

/-- Contiguous-substring occurrence over character lists. -/
def containsSub (pat : List Char) : List Char → Bool
  | [] => pat.isEmpty
  | b :: rest => isPrefixList pat (b :: rest) || containsSub pat rest

/-- Python `pat in s` on strings: contiguous substring containment. -/
def pyInStr (pat s : String) : Bool := containsSub pat.data s.data

/-- Outcome of the one `requests.get` call: a response with an HTTP
status and a parsed JSON body, or a transport-level exception with its
stringified message (a body that fails to parse also surfaces as an
exception). -/
inductive HttpOutcome where
  | ok : Nat → Json → HttpOutcome
  | exn : String → HttpOutcome

/-- `fetch_rate_limit` (source lines 21-39): 200 returns the parsed
body; 401 and other statuses and exceptions return an `error` dict. -/
def fetch_rate_limit : HttpOutcome → Json
  | HttpOutcome.ok status body =>
    if status = 200 then body
    else if status = 401 then Json.obj [("error", Json.str "Authentication Failed: Invalid Token")]
    else Json.obj [("error", Json.str ("API Error: " ++ toString status))]
  | HttpOutcome.exn msg => Json.obj [("error", Json.str msg)]

/-- Python `int()` on a rational: truncation toward zero. -/
def pyInt (q : ℚ) : ℤ := if q < 0 then -⌊-q⌋ else ⌊q⌋

/-- `get_minutes_until_reset` (source lines 47-53): `diff = ts - now`,
`0` when `diff < 0`, otherwise `int(diff / 60)`.  `now` is passed
explicitly since `time.time()` reads the clock. -/
def get_minutes_until_reset (ts now : ℚ) : ℤ :=
  let diff := ts - now
  if diff < 0 then 0 else pyInt (diff / 60)

/-- A JSON number as a Python int; quota fields that are present but
non-numeric would raise in Python and are outside this model. -/
def Json.asInt : Json → Int
  | Json.num n => n
  | _ => 0

/-- `percent` in `visualize_resource_card` (source lines 56-78):
`used / limit` if `limit > 0` else `0`, over `data.get` with default 0. -/
def visualize_card_percent (data : Json) : ℚ :=
  let limit := (data.getD "limit" (Json.num 0)).asInt
  let used := (data.getD "used" (Json.num 0)).asInt
  if 0 < limit then (used : ℚ) / (limit : ℚ) else 0

/-- The value handed to `st.progress` in the card: `min(percent, 1.0)`. -/
def visualize_card_progress (data : Json) : ℚ :=
  min (visualize_card_percent data) 1

/-- `resources = data.get("resources", {})` (source line 145). -/
def resourcesOf (data : Json) : Json := data.getD "resources" (Json.obj [])

/-- `rate = data.get("rate", {})` (source line 146). -/
def rateOf (data : Json) : Json := data.getD "rate" (Json.obj [])

/-- Legacy-shape normalization (source lines 149-151):
`if not resources.get("core") and rate: resources["core"] = rate`. -/
def normalizedResources (data : Json) : Json :=
  let resources := resourcesOf data
  let rate := rateOf data
  if !(resources.getD "core" Json.null).truthy && rate.truthy then
    resources.setKey "core" rate
  else resources

/-- `overall_core = resources.get("core", {})` (source line 160), taken
after normalization. -/
def overall_core (data : Json) : Json :=
  (normalizedResources data).getD "core" (Json.obj [])

/-- `percent_val` in the overall/core block (source lines 165-174). -/
def core_percent_val (core : Json) : ℚ :=
  let limit := (core.getD "limit" (Json.num 0)).asInt
  let used := (core.getD "used" (Json.num 0)).asInt
  if 0 < limit then (used : ℚ) / (limit : ℚ) else 0

/-- The value handed to `st.progress` in the core block: `min(percent_val, 1.0)`. -/
def core_progress (core : Json) : ℚ :=
  min (core_percent_val core) 1

/-- Streamlit session state (source lines 84-87): `api_token` and `data`
are `None` until set; `none` models Python `None`. -/
structure SessionState where
  api_token : Option String
  data : Option Json

/-- Truthiness of `st.session_state.api_token` (`None` and `""` falsy). -/
def tokenTruthy : Option String → Bool
  | none => false
  | some s => s != ""

/-- Truthiness of `st.session_state.data`. -/
def dataTruthy : Option Json → Bool
  | none => false
  | some j => j.truthy

/-- The user interaction carried into one script run: at most one widget
fires per rerun.  `connect` carries the text-field content. -/
inductive Event where
  | idle : Event
  | connect : String → Event
  | refresh : Event
  | logout : Event
  | tryLoginAgain : Event
deriving DecidableEq

/-- Observable effects of one script run. -/
structure Output where
  warned : Bool
  fetchCount : Nat
  errorShown : Option Json
  tryLoginOffered : Bool
  dashboardShown : Bool

/-- A run with no visible side effect yet. -/
def Output.quiet : Output :=
  { warned := false, fetchCount := 0, errorShown := none, tryLoginOffered := false, dashboardShown := false }

/-- One top-to-bottom run of the script (source lines 90-143): login
view when the token is falsy; otherwise Refresh/Logout handlers, then
the fetch-and-store block when `data` is falsy, else the dashboard.
`net` is the transport outcome consumed if the run fetches. -/
def step (s : SessionState) (ev : Event) (net : HttpOutcome) : SessionState × Output :=
  if !tokenTruthy s.api_token then
    -- login view (lines 91-106), ends in st.stop()
    match ev with
    | Event.connect input =>
      if input != "" then
        ({ s with api_token := some input }, Output.quiet)   -- st.rerun()
      else
        (s, { Output.quiet with warned := true })            -- st.warning(...)
    | _ => (s, Output.quiet)
  else
    match ev with
    | Event.refresh => ({ s with data := none }, Output.quiet)            -- st.rerun()
    | Event.logout => ({ api_token := none, data := none }, Output.quiet) -- st.rerun()
    | _ =>
      if !dataTruthy s.data then
        -- fetch-and-store block (lines 129-143)
        let result := fetch_rate_limit net
        if result.hasKey "error" then
          let msg := result.getD "error" Json.null
          let offered := pyInStr "Authentication Failed" (pyStr msg)
          let out := { Output.quiet with fetchCount := 1, errorShown := some msg, tryLoginOffered := offered }
          if offered && (ev = Event.tryLoginAgain : Bool) then
            ({ s with api_token := none }, out)              -- st.rerun()
          else
            (s, out)                                         -- st.stop()
        else
          ({ s with data := some result }, { Output.quiet with fetchCount := 1 })  -- st.rerun()
      else
        (s, { Output.quiet with dashboardShown := true })

/-! ## Theorems -/

/-- C4: for every timestamp `ts`, `get_minutes_until_reset ts now` equals
`max 0 ⌊(ts - now) / 60⌋`; it is `0` for `ts ≤ now`, `⌊(ts - now) / 60⌋`
for `ts > now`, and never negative. -/
theorem get_minutes_until_reset_spec (ts now : ℚ) :
    get_minutes_until_reset ts now = max 0 ⌊(ts - now) / 60⌋
    ∧ (ts ≤ now → get_minutes_until_reset ts now = 0)
    ∧ (now < ts → get_minutes_until_reset ts now = ⌊(ts - now) / 60⌋)
    ∧ 0 ≤ get_minutes_until_reset ts now := by
  have h60 : (0:ℚ) < 60 := by norm_num
  by_cases hd : ts - now < 0
  · have hq : (ts - now) / 60 < 0 := div_neg_of_neg_of_pos hd h60
    have hf : ⌊(ts - now) / 60⌋ < 0 := Int.floor_lt.mpr (by exact_mod_cast hq)
    have hv : get_minutes_until_reset ts now = 0 := by
      simp [get_minutes_until_reset, hd]
    refine ⟨?_, fun _ => hv, fun hlt => absurd hd (by simp; linarith), ?_⟩
    · rw [hv]; exact (max_eq_left hf.le).symm
    · rw [hv]
  · push_neg at hd
    have hq : 0 ≤ (ts - now) / 60 := div_nonneg hd h60.le
    have hf : 0 ≤ ⌊(ts - now) / 60⌋ := Int.floor_nonneg.mpr hq
    have hv : get_minutes_until_reset ts now = ⌊(ts - now) / 60⌋ := by
      simp [get_minutes_until_reset, not_lt.mpr hd, pyInt, not_lt.mpr hq]
    refine ⟨?_, fun hle => ?_, fun _ => hv, ?_⟩
    · rw [hv, max_eq_right hf]
    · have hz : ts - now = 0 := by linarith
      simp [get_minutes_until_reset, hz, pyInt]
    · rw [hv]; exact hf

/-- Witness for C4 at concrete inputs (both branches). -/
theorem get_minutes_until_reset_spec_witness :
    get_minutes_until_reset 40 100 = 0 ∧ get_minutes_until_reset 190 100 = ⌊(190 - 100 : ℚ) / 60⌋ :=
  ⟨(get_minutes_until_reset_spec 40 100).2.1 (by norm_num),
   (get_minutes_until_reset_spec 190 100).2.2.1 (by norm_num)⟩

/-- C5: in both the per-resource card and the core summary block, the
progress ratio is `used / limit` when `limit > 0` and `0` when
`limit = 0`, and for `limit ≥ 0`, `used ≥ 0` the value handed to
`st.progress` lies in `[0, 1]` even when `used > limit`. -/
theorem progress_ratio_spec (q : Json)
    (hl : 0 ≤ (q.getD "limit" (Json.num 0)).asInt)
    (hu : 0 ≤ (q.getD "used" (Json.num 0)).asInt) :
    (0 < (q.getD "limit" (Json.num 0)).asInt →
      visualize_card_percent q
        = ((q.getD "used" (Json.num 0)).asInt : ℚ) / ((q.getD "limit" (Json.num 0)).asInt : ℚ)
      ∧ core_percent_val q
        = ((q.getD "used" (Json.num 0)).asInt : ℚ) / ((q.getD "limit" (Json.num 0)).asInt : ℚ))
    ∧ ((q.getD "limit" (Json.num 0)).asInt = 0 →
      visualize_card_percent q = 0 ∧ core_percent_val q = 0)
    ∧ (0 ≤ visualize_card_progress q ∧ visualize_card_progress q ≤ 1)
    ∧ (0 ≤ core_progress q ∧ core_progress q ≤ 1) := by
  have hcard : core_percent_val q = visualize_card_percent q := rfl
  have hpos : 0 ≤ visualize_card_percent q := by
    simp only [visualize_card_percent]
    split
    · exact div_nonneg (by exact_mod_cast hu) (by positivity)
    · exact le_refl 0
  refine ⟨fun h => ?_, fun h => ?_, ⟨?_, ?_⟩, ⟨?_, ?_⟩⟩
  · rw [hcard]
    constructor <;> · simp only [visualize_card_percent]; rw [if_pos h]
  · rw [hcard]
    constructor <;> · simp only [visualize_card_percent]; rw [if_neg (by omega)]
  · exact le_min hpos (by norm_num)
  · exact min_le_right _ _
  · exact le_min (hcard ▸ hpos) (by norm_num)
  · exact min_le_right _ _

/-- Witness for C5 at a concrete over-limit quota (`used = 25 > limit = 10`). -/
theorem progress_ratio_spec_witness :
    visualize_card_percent (Json.obj [("limit", Json.num 10), ("used", Json.num 25)]) = 25 / 10
    ∧ visualize_card_progress (Json.obj [("limit", Json.num 10), ("used", Json.num 25)]) ≤ 1 := by
  have h := progress_ratio_spec (Json.obj [("limit", Json.num 10), ("used", Json.num 25)])
    (by decide) (by decide)
  refine ⟨?_, h.2.2.1.2⟩
  have h1 := (h.1 (by decide)).1
  simpa [Json.getD, Json.lookupKey, List.lookup, Json.asInt] using h1

/-- C1: the fetcher maps HTTP 200 to the parsed body, 401 to the fixed
authentication-failure message, any other status to `API Error: <code>`,
and a transport exception to its stringified message. -/
theorem fetch_rate_limit_spec (body : Json) (status : Nat) (msg : String)
    (h200 : status ≠ 200) (h401 : status ≠ 401) :
    fetch_rate_limit (HttpOutcome.ok 200 body) = body
    ∧ fetch_rate_limit (HttpOutcome.ok 401 body)
      = Json.obj [("error", Json.str "Authentication Failed: Invalid Token")]
    ∧ fetch_rate_limit (HttpOutcome.ok status body)
      = Json.obj [("error", Json.str ("API Error: " ++ toString status))]
    ∧ fetch_rate_limit (HttpOutcome.exn msg)
      = Json.obj [("error", Json.str msg)] := by
  refine ⟨rfl, rfl, ?_, rfl⟩
  simp [fetch_rate_limit, h200, h401]

/-- Witness for C1 at status 403 and a concrete body and message. -/
theorem fetch_rate_limit_spec_witness :
    fetch_rate_limit (HttpOutcome.ok 403 Json.null)
      = Json.obj [("error", Json.str "API Error: 403")] :=
  (fetch_rate_limit_spec Json.null 403 "boom" (by decide) (by decide)).2.2.1

/-- Updating a key with `setEntry` makes it the first lookup result. -/
theorem lookup_setEntry (k : String) (v : Json) :
    ∀ l : List (String × Json), List.lookup k (setEntry k v l) = some v := by
  intro l
  induction l with
  | nil => simp [setEntry, List.lookup]
  | cons kv rest ih =>
    rcases kv with ⟨a, b⟩
    by_cases h : a = k
    · subst h; simp [setEntry, List.lookup]
    · have h2 : (k == a) = false := beq_eq_false_iff_ne.mpr (Ne.symm h)
      simp [setEntry, List.lookup, h, h2, ih]

/-- C2-counterexample: a payload whose `resources` already holds a
(`core`) entry — the empty object — together with a truthy top-level
`rate`: the code overwrites the existing entry with `rate` instead of
ignoring `rate`, so the original `core` entry is not rendered unchanged. -/
theorem normalization_counterexample :
    Json.lookupKey (resourcesOf (Json.obj [("resources", Json.obj [("core", Json.obj [])]), ("rate", Json.obj [("limit", Json.num 60)])])) "core"
      = some (Json.obj [])
    ∧ overall_core (Json.obj [("resources", Json.obj [("core", Json.obj [])]), ("rate", Json.obj [("limit", Json.num 60)])])
      = Json.obj [("limit", Json.num 60)]
    ∧ Json.obj [("limit", Json.num 60)] ≠ Json.obj ([] : List (String × Json)) :=
  ⟨rfl, rfl, by simp⟩

/-- C2-amended: if `resources` (a dict) has no `core` key and the payload
has a top-level `rate` object, the rendered core entry is that `rate`
object; and if `resources` has a truthy `core` entry, `rate` is ignored
and the resources mapping is rendered unchanged.  (A present-but-falsy
`core` entry, as in the counterexample, is instead overwritten.) -/
theorem normalization_amended (data r c : Json) (rkvs kvs : List (String × Json)) :
    (resourcesOf data = Json.obj rkvs →
      Json.lookupKey (resourcesOf data) "core" = none →
      data.lookupKey "rate" = some r →
      r = Json.obj kvs →
      overall_core data = r)
    ∧ (Json.lookupKey (resourcesOf data) "core" = some c →
      c.truthy = true →
      normalizedResources data = resourcesOf data) := by
  constructor
  · intro hobj hcore hrate hr
    have hrateOf : rateOf data = r := by
      simp [rateOf, Json.getD, hrate]
    have hgd : (resourcesOf data).getD "core" Json.null = Json.null := by
      simp [Json.getD, hcore]
    rcases kvs with _ | ⟨kv, rest⟩
    · -- empty rate object: falsy, nothing is copied, and the rendered
      -- default `{}` coincides with it
      have htr : r.truthy = false := by rw [hr]; rfl
      simp [overall_core, normalizedResources, hgd, hrateOf, hr, Json.truthy, Json.getD, hcore]
    · have htr : r.truthy = true := by rw [hr]; rfl
      simp only [overall_core, normalizedResources, hgd, hrateOf, htr]
      simp only [Json.truthy, Bool.not_false, Bool.and_true, if_pos]
      rw [hobj]
      simp [Json.setKey, Json.getD, Json.lookupKey, lookup_setEntry]
  · intro hcore htr
    have hgd : (resourcesOf data).getD "core" Json.null = c := by
      simp [Json.getD, hcore]
    simp [normalizedResources, hgd, htr]

/-- Witness for C2-amended: both branches at concrete payloads. -/
theorem normalization_amended_witness :
    overall_core (Json.obj [("rate", Json.obj [("limit", Json.num 60)])])
      = Json.obj [("limit", Json.num 60)]
    ∧ normalizedResources (Json.obj [("resources", Json.obj [("core", Json.obj [("limit", Json.num 5000)])]), ("rate", Json.obj [("limit", Json.num 60)])])
      = resourcesOf (Json.obj [("resources", Json.obj [("core", Json.obj [("limit", Json.num 5000)])]), ("rate", Json.obj [("limit", Json.num 60)])]) :=
  ⟨(normalization_amended (Json.obj [("rate", Json.obj [("limit", Json.num 60)])])
      (Json.obj [("limit", Json.num 60)]) Json.null [] [("limit", Json.num 60)]).1
      rfl rfl rfl rfl,
   (normalization_amended (Json.obj [("resources", Json.obj [("core", Json.obj [("limit", Json.num 5000)])]), ("rate", Json.obj [("limit", Json.num 60)])])
      Json.null (Json.obj [("limit", Json.num 5000)]) [] []).2 rfl rfl⟩

/-- Characters of a prefix occur in the longer list. -/
theorem mem_of_isPrefixList :
    ∀ (p l : List Char), isPrefixList p l = true → ∀ c ∈ p, c ∈ l := by
  intro p
  induction p with
  | nil => intro l _ c hc; cases hc
  | cons a as ih =>
    intro l hp c hc
    cases l with
    | nil => cases hp
    | cons b bs =>
      simp only [isPrefixList, Bool.and_eq_true, beq_iff_eq] at hp
      rcases List.mem_cons.mp hc with hc | hc
      · exact List.mem_cons.mpr (Or.inl (hc.trans hp.1))
      · exact List.mem_cons_of_mem _ (ih bs hp.2 c hc)

/-- Characters of an occurring substring occur in the searched list. -/
theorem mem_of_containsSub :
    ∀ (p l : List Char), containsSub p l = true → ∀ c ∈ p, c ∈ l := by
  intro p l
  induction l with
  | nil =>
    intro h c hc
    simp only [containsSub, List.isEmpty_iff] at h
    subst h; cases hc
  | cons b bs ih =>
    intro h c hc
    simp only [containsSub, Bool.or_eq_true] at h
    rcases h with h | h
    · exact mem_of_isPrefixList p (b :: bs) h c hc
    · exact List.mem_cons_of_mem _ (ih h c hc)

/-- Every character produced by `Nat.toDigitsCore 10` is a decimal digit
or comes from the accumulator. -/
theorem toDigitsCore_chars (c : Char) :
    ∀ (fuel n : Nat) (acc : List Char),
      c ∈ Nat.toDigitsCore 10 fuel n acc → c ∈ acc ∨ c ∈ ("0123456789").data := by
  intro fuel
  induction fuel with
  | zero => intro n acc h; exact Or.inl (by simpa [Nat.toDigitsCore] using h)
  | succ f ih =>
    intro n acc h
    have hdig : Nat.digitChar (n % 10) ∈ ("0123456789").data := by
      have hlt : n % 10 < 10 := Nat.mod_lt _ (by omega)
      have hd10 : ∀ m : Nat, m < 10 → Nat.digitChar m ∈ ("0123456789").data := by decide
      exact hd10 _ hlt
    simp only [Nat.toDigitsCore] at h
    by_cases hz : n / 10 = 0
    · rw [if_pos hz] at h
      rcases List.mem_cons.mp h with h | h
      · exact Or.inr (h ▸ hdig)
      · exact Or.inl h
    · rw [if_neg hz] at h
      rcases ih (n / 10) (Nat.digitChar (n % 10) :: acc) h with h | h
      · rcases List.mem_cons.mp h with h | h
        · exact Or.inr (h ▸ hdig)
        · exact Or.inl h
      · exact Or.inr h

/-- The ApiError message `API Error: <status>` never contains the
authentication-failure marker, whatever the status code. -/
theorem apiError_not_auth (status : Nat) :
    pyInStr "Authentication Failed" ("API Error: " ++ toString status) = false := by
  by_contra hne
  have h : containsSub ("Authentication Failed").data (("API Error: " ++ toString status)).data = true := by
    revert hne
    unfold pyInStr
    cases containsSub ("Authentication Failed").data (("API Error: " ++ toString status)).data
    · intro hne; exact absurd rfl hne
    · intro _; rfl
  have hh : ('h' : Char) ∈ (("API Error: " ++ toString status)).data :=
    mem_of_containsSub _ _ h 'h' (by decide)
  have happ : (("API Error: " ++ toString status)).data
      = ("API Error: ").data ++ (toString status).data := String.data_append _ _
  rw [happ] at hh
  rcases List.mem_append.mp hh with hh | hh
  · exact absurd hh (by decide)
  · have hts : (toString status).data = Nat.toDigitsCore 10 (status + 1) status [] := rfl
    rw [hts] at hh
    rcases toDigitsCore_chars 'h' (status + 1) status [] hh with hh | hh
    · cases hh
    · exact absurd hh (by decide)

/-- C3-counterexample: a transport-level failure (not HTTP 401) whose
stringified exception happens to contain "Authentication Failed" also
gets the "Try Login Again" action, because the script pattern-matches on
the message text rather than on the failure kind. -/
theorem tryLogin_counterexample :
    fetch_rate_limit (HttpOutcome.exn "proxy says Authentication Failed upstream")
      = Json.obj [("error", Json.str "proxy says Authentication Failed upstream")]
    ∧ (step { api_token := some "tk", data := none } Event.idle
        (HttpOutcome.exn "proxy says Authentication Failed upstream")).2.tryLoginOffered = true :=
  ⟨rfl, rfl⟩

/-- C3-amended: the re-login action is offered exactly when the rendered
error message contains "Authentication Failed" as a substring: always
for HTTP 401, never for another non-200 status (whose message is
`API Error: <code>`), and for a transport error precisely when its
stringified exception contains the marker. -/
theorem tryLogin_offered_amended (s : SessionState) (b : Json) (status : Nat) (m : String)
    (ht : tokenTruthy s.api_token = true) (hd : dataTruthy s.data = false) :
    (∀ net, (step s Event.idle net).2.tryLoginOffered
      = ((fetch_rate_limit net).hasKey "error"
          && pyInStr "Authentication Failed" (pyStr ((fetch_rate_limit net).getD "error" Json.null))))
    ∧ (step s Event.idle (HttpOutcome.ok 401 b)).2.tryLoginOffered = true
    ∧ (status ≠ 200 → status ≠ 401 →
        (step s Event.idle (HttpOutcome.ok status b)).2.tryLoginOffered = false)
    ∧ (step s Event.idle (HttpOutcome.exn m)).2.tryLoginOffered
      = pyInStr "Authentication Failed" m := by
  have hgen : ∀ net, (step s Event.idle net).2.tryLoginOffered
      = ((fetch_rate_limit net).hasKey "error"
          && pyInStr "Authentication Failed" (pyStr ((fetch_rate_limit net).getD "error" Json.null))) := by
    intro net
    by_cases hk : (fetch_rate_limit net).hasKey "error"
    · simp [step, ht, hd, hk]
    · simp [step, ht, hd, hk, Output.quiet]
  refine ⟨hgen, ?_, fun h200 h401 => ?_, ?_⟩
  · rw [hgen]; rfl
  · rw [hgen]
    simp only [fetch_rate_limit, if_neg h200, if_neg h401]
    simp [Json.hasKey, Json.lookupKey, List.lookup, Json.getD, pyStr, apiError_not_auth status]
  · rw [hgen]; rfl

/-- Witness for C3-amended at a concrete state, status 403 and message. -/
theorem tryLogin_offered_amended_witness :
    (step { api_token := some "tk", data := none } Event.idle
      (HttpOutcome.ok 403 Json.null)).2.tryLoginOffered = false
    ∧ (step { api_token := some "tk", data := none } Event.idle
      (HttpOutcome.ok 401 Json.null)).2.tryLoginOffered = true :=
  ⟨(tryLogin_offered_amended { api_token := some "tk", data := none } Json.null 403 "x"
      rfl rfl).2.2.1 (by decide) (by decide),
   (tryLogin_offered_amended { api_token := some "tk", data := none } Json.null 403 "x"
      rfl rfl).2.1⟩

/-- C6-counterexample: from a reachable error view whose stored data is
the empty object (a falsy but present payload: a 200 response with body
`{}` is stored, and being falsy it triggers a refetch, which can then
fail with 401), clicking "Try Login Again" clears the token but leaves
the stored data present rather than absent. -/
theorem logout_clears_counterexample :
    (step { api_token := some "tk", data := some (Json.obj []) } Event.tryLoginAgain
      (HttpOutcome.ok 401 Json.null)).1.api_token = none
    ∧ (step { api_token := some "tk", data := some (Json.obj []) } Event.tryLoginAgain
      (HttpOutcome.ok 401 Json.null)).1.data = some (Json.obj [])
    ∧ some (Json.obj []) ≠ (none : Option Json) :=
  ⟨rfl, rfl, by simp⟩

/-- C6-amended: from any logged-in session — including the Dashboard,
where the stored data is truthy — Logout clears both the token and the
data; the "Try Login Again" action (reachable only when the stored data
is falsy) clears only the token and leaves the stored data unchanged
(falsy — absent or empty — but not necessarily absent). -/
theorem logout_clears_amended (s : SessionState) (net : HttpOutcome) (b : Json)
    (ht : tokenTruthy s.api_token = true) :
    (step s Event.logout net).1.api_token = none
    ∧ (step s Event.logout net).1.data = none
    ∧ (dataTruthy s.data = false →
        (step s Event.tryLoginAgain (HttpOutcome.ok 401 b)).1.api_token = none
        ∧ (step s Event.tryLoginAgain (HttpOutcome.ok 401 b)).1.data = s.data) := by
  have hval : (Json.obj [("error", Json.str "Authentication Failed: Invalid Token")]).getD "error" Json.null
      = Json.str "Authentication Failed: Invalid Token" := rfl
  have hoff : pyInStr "Authentication Failed"
      (pyStr (Json.str "Authentication Failed: Invalid Token")) = true := rfl
  refine ⟨by simp [step, ht], by simp [step, ht], fun hd => ⟨?_, ?_⟩⟩ <;>
    simp [step, ht, hd, hval, hoff, Json.hasKey, Json.lookupKey, List.lookup, fetch_rate_limit]

/-- Witness for C6-amended: Logout from a Dashboard session whose stored
data is truthy, and Try Login Again from an error view. -/
theorem logout_clears_amended_witness :
    (step { api_token := some "tk", data := some (Json.obj [("resources", Json.obj [("core", Json.obj [("limit", Json.num 5000)])])]) } Event.logout (HttpOutcome.exn "x")).1.api_token = none
    ∧ (step { api_token := some "tk", data := some (Json.obj [("resources", Json.obj [("core", Json.obj [("limit", Json.num 5000)])])]) } Event.logout (HttpOutcome.exn "x")).1.data = none
    ∧ (step { api_token := some "tk", data := none } Event.tryLoginAgain
        (HttpOutcome.ok 401 Json.null)).1.data = none :=
  ⟨(logout_clears_amended { api_token := some "tk", data := some (Json.obj [("resources", Json.obj [("core", Json.obj [("limit", Json.num 5000)])])]) } (HttpOutcome.exn "x")
      Json.null rfl).1,
   (logout_clears_amended { api_token := some "tk", data := some (Json.obj [("resources", Json.obj [("core", Json.obj [("limit", Json.num 5000)])])]) } (HttpOutcome.exn "x")
      Json.null rfl).2.1,
   ((logout_clears_amended { api_token := some "tk", data := none } (HttpOutcome.exn "x")
      Json.null rfl).2.2 rfl).2⟩

/-- C7: submitting an empty token from the logged-out view leaves the
session unchanged (stays logged out, no token stored), shows the
validation warning, and attempts no fetch. -/
theorem empty_token_submit (s : SessionState) (net : HttpOutcome)
    (ht : tokenTruthy s.api_token = false) :
    step s (Event.connect "") net = (s, { Output.quiet with warned := true }) := by
  simp [step, ht]

/-- Witness for C7 at the initial session. -/
theorem empty_token_submit_witness :
    step { api_token := none, data := none } (Event.connect "") (HttpOutcome.exn "x")
      = ({ api_token := none, data := none }, { Output.quiet with warned := true }) :=
  empty_token_submit { api_token := none, data := none } (HttpOutcome.exn "x") rfl

/-- C8-counterexample: a failed fetch is not stored into session state:
after a 401 a fetch has happened (count 1), the failure message is
rendered, yet `data` is still `None`, so the next render fetches again. -/
theorem fetch_store_counterexample :
    (step { api_token := some "tk", data := none } Event.idle
      (HttpOutcome.ok 401 Json.null)).2.fetchCount = 1
    ∧ (step { api_token := some "tk", data := none } Event.idle
      (HttpOutcome.ok 401 Json.null)).2.errorShown
      = some (Json.str "Authentication Failed: Invalid Token")
    ∧ (step { api_token := some "tk", data := none } Event.idle
      (HttpOutcome.ok 401 Json.null)).1.data = none :=
  ⟨rfl, rfl, rfl⟩

/-- In a render cycle that reaches the fetch block: success is stored,
failure leaves the data unchanged, and exactly one fetch happens. -/
theorem step_fetch_block (s : SessionState) (ev : Event) (net : HttpOutcome)
    (ht : tokenTruthy s.api_token = true) (hd : dataTruthy s.data = false)
    (h1 : ev ≠ Event.refresh) (h2 : ev ≠ Event.logout) :
    ((fetch_rate_limit net).hasKey "error" = false →
      (step s ev net).1.data = some (fetch_rate_limit net))
    ∧ ((fetch_rate_limit net).hasKey "error" = true →
      (step s ev net).1.data = s.data)
    ∧ (step s ev net).2.fetchCount = 1 := by
  cases ev with
  | refresh => exact absurd rfl h1
  | logout => exact absurd rfl h2
  | idle =>
    refine ⟨fun hk => ?_, fun hk => ?_, ?_⟩
    · simp [step, ht, hd, hk]
    · simp only [step, ht, hd]
      simp [hk]
    · by_cases hk : (fetch_rate_limit net).hasKey "error" <;> simp [step, ht, hd, hk]
  | connect input =>
    refine ⟨fun hk => ?_, fun hk => ?_, ?_⟩
    · simp [step, ht, hd, hk]
    · simp [step, ht, hd, hk]
    · by_cases hk : (fetch_rate_limit net).hasKey "error" <;> simp [step, ht, hd, hk]
  | tryLoginAgain =>
    refine ⟨fun hk => ?_, fun hk => ?_, ?_⟩
    · simp [step, ht, hd, hk]
    · simp only [step, ht, hd]
      simp [hk]
      split <;> rfl
    · by_cases hk : (fetch_rate_limit net).hasKey "error" <;>
        · simp [step, ht, hd, hk]
          try (split <;> rfl)

/-- C8-amended: in a render cycle that reaches the fetch block, a
successful result is stored into session state immediately, while a
failed result is rendered and the cycle halts without storing it (the
data stays as it was); every render cycle performs at most one fetch. -/
theorem fetch_store_amended (s : SessionState) (ev : Event) (net : HttpOutcome)
    (ht : tokenTruthy s.api_token = true) (hd : dataTruthy s.data = false)
    (h1 : ev ≠ Event.refresh) (h2 : ev ≠ Event.logout) :
    ((fetch_rate_limit net).hasKey "error" = false →
      (step s ev net).1.data = some (fetch_rate_limit net))
    ∧ ((fetch_rate_limit net).hasKey "error" = true →
      (step s ev net).1.data = s.data)
    ∧ (step s ev net).2.fetchCount = 1 :=
  step_fetch_block s ev net ht hd h1 h2

/-- Witness for C8-amended: success stored, failure not stored. -/
theorem fetch_store_amended_witness :
    (step { api_token := some "tk", data := none } Event.idle
      (HttpOutcome.ok 200 (Json.obj [("resources", Json.obj [])]))).1.data
      = some (Json.obj [("resources", Json.obj [])])
    ∧ (step { api_token := some "tk", data := none } Event.idle
      (HttpOutcome.exn "boom")).1.data = none :=
  ⟨(fetch_store_amended { api_token := some "tk", data := none } Event.idle
      (HttpOutcome.ok 200 (Json.obj [("resources", Json.obj [])])) rfl rfl
      (by decide) (by decide)).1 rfl,
   (fetch_store_amended { api_token := some "tk", data := none } Event.idle
      (HttpOutcome.exn "boom") rfl rfl (by decide) (by decide)).2.1 rfl⟩

/-- C9-counterexample: a render cycle with a token present and falsy
stored data in which Refresh is clicked performs no fetch (the click
handler reruns the script before the fetch gate), refuting "a fetch is
triggered exactly when the stored data is falsy". -/
theorem refetch_gate_counterexample :
    tokenTruthy (some "tk") = true
    ∧ dataTruthy (none : Option Json) = false
    ∧ (step { api_token := some "tk", data := none } Event.refresh
        (HttpOutcome.exn "x")).2.fetchCount = 0 :=
  ⟨rfl, rfl, rfl⟩

/-- C9-amended: in a render cycle with a truthy token in which neither
Refresh nor Logout is clicked, a fetch happens exactly when the stored
data is falsy; and a successful fetch of the empty object is stored yet
remains falsy, so the very next render fetches again. -/
theorem refetch_gate_amended (s : SessionState) (ev : Event) (net net2 : HttpOutcome)
    (ht : tokenTruthy s.api_token = true)
    (h1 : ev ≠ Event.refresh) (h2 : ev ≠ Event.logout) :
    ((step s ev net).2.fetchCount = 1 ↔ dataTruthy s.data = false)
    ∧ (dataTruthy s.data = false →
        (step s Event.idle (HttpOutcome.ok 200 (Json.obj []))).1.data = some (Json.obj [])
        ∧ (step ((step s Event.idle (HttpOutcome.ok 200 (Json.obj []))).1) Event.idle
            net2).2.fetchCount = 1) := by
  constructor
  · cases hdt : dataTruthy s.data with
    | true =>
      cases ev with
      | refresh => exact absurd rfl h1
      | logout => exact absurd rfl h2
      | idle => simp [step, ht, hdt, Output.quiet]
      | connect input => simp [step, ht, hdt, Output.quiet]
      | tryLoginAgain => simp [step, ht, hdt, Output.quiet]
    | false =>
      have hfc : (step s ev net).2.fetchCount = 1 :=
        (step_fetch_block s ev net ht hdt h1 h2).2.2
      simp [hfc]
  · intro hd
    have hstore : (step s Event.idle (HttpOutcome.ok 200 (Json.obj []))).1
        = { s with data := some (Json.obj []) } := by
      simp [step, ht, hd, Json.hasKey, Json.lookupKey, List.lookup, fetch_rate_limit]
    refine ⟨by rw [hstore], ?_⟩
    rw [hstore]
    exact (step_fetch_block { s with data := some (Json.obj []) } Event.idle net2
      ht rfl (by decide) (by decide)).2.2

/-- Witness for C9-amended: the empty-body refetch chain at a concrete
session. -/
theorem refetch_gate_amended_witness :
    (step { api_token := some "tk", data := none } Event.idle
      (HttpOutcome.ok 200 (Json.obj []))).1.data = some (Json.obj [])
    ∧ (step ((step { api_token := some "tk", data := none } Event.idle
        (HttpOutcome.ok 200 (Json.obj []))).1) Event.idle (HttpOutcome.exn "e2")).2.fetchCount = 1 :=
  (refetch_gate_amended { api_token := some "tk", data := none } Event.idle
    (HttpOutcome.exn "e1") (HttpOutcome.exn "e2") rfl (by decide) (by decide)).2 rfl

/-- C10: a 200 response whose body has a top-level `error` key is treated
as a failure by the presentation layer: the associated value is rendered
as the error message, the payload is never stored, and no dashboard is
shown, although one fetch did occur. -/
theorem success_with_error_key (s : SessionState) (kvs : List (String × Json)) (v : Json)
    (ev : Event) (ht : tokenTruthy s.api_token = true) (hd : dataTruthy s.data = false)
    (h1 : ev ≠ Event.refresh) (h2 : ev ≠ Event.logout)
    (hb : List.lookup "error" kvs = some v) :
    (step s ev (HttpOutcome.ok 200 (Json.obj kvs))).2.errorShown = some v
    ∧ (step s ev (HttpOutcome.ok 200 (Json.obj kvs))).1.data = s.data
    ∧ (step s ev (HttpOutcome.ok 200 (Json.obj kvs))).2.dashboardShown = false
    ∧ (step s ev (HttpOutcome.ok 200 (Json.obj kvs))).2.fetchCount = 1 := by
  have hfetch : fetch_rate_limit (HttpOutcome.ok 200 (Json.obj kvs)) = Json.obj kvs := rfl
  have hk : (Json.obj kvs).hasKey "error" = true := by
    simp [Json.hasKey, Json.lookupKey, hb]
  have hget : (Json.obj kvs).getD "error" Json.null = v := by
    simp [Json.getD, Json.lookupKey, hb]
  cases ev with
  | refresh => exact absurd rfl h1
  | logout => exact absurd rfl h2
  | idle => refine ⟨?_, ?_, ?_, ?_⟩ <;> simp [step, ht, hd, hfetch, hk, hget, Output.quiet]
  | connect input => refine ⟨?_, ?_, ?_, ?_⟩ <;> simp [step, ht, hd, hfetch, hk, hget, Output.quiet]
  | tryLoginAgain =>
    refine ⟨?_, ?_, ?_, ?_⟩ <;>
      · simp [step, ht, hd, hfetch, hk, hget, Output.quiet]
        try (split <;> rfl)

/-- Witness for C10 at a concrete 200 body carrying an `error` key. -/
theorem success_with_error_key_witness :
    (step { api_token := some "tk", data := none } Event.idle
      (HttpOutcome.ok 200 (Json.obj [("error", Json.str "quota service down")]))).2.errorShown
      = some (Json.str "quota service down")
    ∧ (step { api_token := some "tk", data := none } Event.idle
      (HttpOutcome.ok 200 (Json.obj [("error", Json.str "quota service down")]))).1.data = none :=
  ⟨(success_with_error_key { api_token := some "tk", data := none }
      [("error", Json.str "quota service down")] (Json.str "quota service down")
      Event.idle rfl rfl (by decide) (by decide) rfl).1,
   (success_with_error_key { api_token := some "tk", data := none }
      [("error", Json.str "quota service down")] (Json.str "quota service down")
      Event.idle rfl rfl (by decide) (by decide) rfl).2.1⟩
